import Mathlib

/-!
Shallow embedding of the trading gateway and service of the repository
(src/dtos.py, src/util.py, src/mt5_adapter.py, src/app/services/base.py,
src/app/services/trading_service.py, src/config/db.py, src/db_models.py).

Prices and volumes are modelled as rationals; Python exceptions are
modelled with an explicit error type and Except; the MetaTrader5 SDK
(an external collaborator) is modelled as an environment record whose
fields mirror the SDK calls the adapter makes.
-/

/-- dtos.py: TradeSide enumeration (values "buy" / "sell"). -/
inductive TradeSide where
  | BUY
  | SELL
deriving DecidableEq, Repr

/-- dtos.py: TradeSide string values. -/
def TradeSide.value : TradeSide → String
  | .BUY => "buy"
  | .SELL => "sell"

/-- dtos.py: OrderKind enumeration. -/
inductive OrderKind where
  | MARKET
  | BUY_LIMIT
  | SELL_LIMIT
  | BUY_STOP
  | SELL_STOP
  | BUY_STOP_LIMIT
  | SELL_STOP_LIMIT
deriving DecidableEq, Repr

/-- dtos.py: OrderKind string values. -/
def OrderKind.value : OrderKind → String
  | .MARKET => "market"
  | .BUY_LIMIT => "buy_limit"
  | .SELL_LIMIT => "sell_limit"
  | .BUY_STOP => "buy_stop"
  | .SELL_STOP => "sell_stop"
  | .BUY_STOP_LIMIT => "buy_stop_limit"
  | .SELL_STOP_LIMIT => "sell_stop_limit"

/-- dtos.py: SymbolInfoDTO. -/
structure SymbolInfoDTO where
  name : String
  digits : Nat
  point : ℚ
  volume_min : ℚ
  volume_step : ℚ
  volume_max : ℚ
  trade_mode : Int
  filling_mode : Int
  stops_level : Int
deriving DecidableEq, Repr

/-- dtos.py: TickDTO. -/
structure TickDTO where
  time : Int
  bid : ℚ
  ask : ℚ
  last : ℚ
deriving DecidableEq, Repr

/-- dtos.py: OrderRequestDTO (defaults as in the dataclass). -/
structure OrderRequestDTO where
  symbol : String
  side : TradeSide
  volume : ℚ
  kind : OrderKind := .MARKET
  price : Option ℚ := none
  stoplimit_price : Option ℚ := none
  sl : Option ℚ := none
  tp : Option ℚ := none
  deviation : Int := 120
  comment : String := "py-trade"
  sl_dist : Option ℚ := none
  tp_dist : Option ℚ := none
deriving DecidableEq, Repr

/-- dtos.py: OrderResultDTO. last_error is the (code, message) pair
returned by the SDK's last_error(). -/
structure OrderResultDTO where
  retcode : Int
  label : String
  comment : String
  order : Option Int
  deal : Option Int
  price : Option ℚ
  request_id : Option Int
  last_error : Option (Int × String) := none
  raw : List (String × String) := []
deriving DecidableEq, Repr

/-- dtos.py: PositionDTO. -/
structure PositionDTO where
  ticket : Int
  symbol : String
  side : TradeSide
  volume : ℚ
  price_open : ℚ
  sl : ℚ
  tp : ℚ
  profit : ℚ
deriving DecidableEq, Repr

/-- Python round-half-to-even on a rational, as used by the built-in
round() the adapter applies to SL/TP derivation. -/
def pyRoundHalfEven (q : ℚ) : ℤ :=
  let f : ℤ := ⌊q⌋
  let frac : ℚ := q - (f : ℚ)
  if frac < 1 / 2 then f
  else if 1 / 2 < frac then f + 1
  else if f % 2 = 0 then f else f + 1

/-- Python round(x, digits): round to the given number of decimal digits. -/
def pyRound (q : ℚ) (digits : Nat) : ℚ :=
  (pyRoundHalfEven (q * (10 : ℚ) ^ digits) : ℚ) / (10 : ℚ) ^ digits

/-- Python truthiness of an optional int: None and 0 are falsy. -/
def optTruthy : Option Int → Bool
  | none => false
  | some n => n != 0

/-- Python expression (o or d) for an optional int o and int d. -/
def pyOrInt (o : Option Int) (d : Int) : Int :=
  match o with
  | none => d
  | some n => if n = 0 then d else n

/-- Python expression (o or 0.0) for an optional rational. -/
def pyOrZero (o : Option ℚ) : ℚ := o.getD 0

/-! ## util.py: the retcode normalizer -/

/-- util.py build_retcode_map: the fixed (SDK constant name, label) pairs. -/
def retcodePairs : List (String × String) :=
  [("TRADE_RETCODE_DONE", "DONE"),
   ("TRADE_RETCODE_DONE_PARTIAL", "DONE_PARTIAL"),
   ("TRADE_RETCODE_PLACED", "PLACED"),
   ("TRADE_RETCODE_REJECT", "REJECT"),
   ("TRADE_RETCODE_CANCEL", "CANCEL"),
   ("TRADE_RETCODE_INVALID", "INVALID"),
   ("TRADE_RETCODE_INVALID_VOLUME", "INVALID_VOLUME"),
   ("TRADE_RETCODE_INVALID_PRICE", "INVALID_PRICE"),
   ("TRADE_RETCODE_INVALID_STOPS", "INVALID_STOPS"),
   ("TRADE_RETCODE_MARKET_CLOSED", "MARKET_CLOSED"),
   ("TRADE_RETCODE_NO_MONEY", "NO_MONEY"),
   ("TRADE_RETCODE_PRICE_CHANGED", "PRICE_CHANGED"),
   ("TRADE_RETCODE_PRICE_OFF", "OFF_QUOTES"),
   ("TRADE_RETCODE_TRADE_DISABLED", "TRADE_DISABLED"),
   ("TRADE_RETCODE_TIMEOUT", "TIMEOUT"),
   ("TRADE_RETCODE_ORDER_CHANGED", "ORDER_CHANGED"),
   ("TRADE_RETCODE_TOO_MANY_REQUESTS", "TOO_MANY_REQUESTS"),
   ("TRADE_RETCODE_CLIENT_DISABLES_AT", "CLIENT_AT_DISABLED"),
   ("TRADE_RETCODE_LOCKED", "SYMBOL_TRADE_DISABLED"),
   ("TRADE_RETCODE_FROZEN", "SYMBOL_FROZEN")]

/-- Python dict insertion (last write wins): new binding shadows older ones,
lookups below take the first hit. -/
def dictInsert (m : List (Int × String)) (k : Int) (v : String) : List (Int × String) :=
  (k, v) :: m

/-- Python dict.get(k, default). -/
def dictGet (m : List (Int × String)) (k : Int) (default : String) : String :=
  match m.find? (fun p => p.1 == k) with
  | some p => p.2
  | none => default

/-- util.py build_retcode_map, parameterized by the SDK symbol table
(getattr(mt5, const, None)): constants the SDK does not define are skipped. -/
def build_retcode_map (sdk : String → Option Int) : List (Int × String) :=
  retcodePairs.foldl
    (fun m p =>
      match sdk p.1 with
      | some v => dictInsert m v p.2
      | none => m)
    []

/-- The numeric values the MetaTrader5 SDK defines for the retcode
constants named in retcodePairs (external collaborator, fixed values). -/
def mt5SdkConsts : List (String × Int) :=
  [("TRADE_RETCODE_DONE", 10009),
   ("TRADE_RETCODE_DONE_PARTIAL", 10010),
   ("TRADE_RETCODE_PLACED", 10008),
   ("TRADE_RETCODE_REJECT", 10006),
   ("TRADE_RETCODE_CANCEL", 10007),
   ("TRADE_RETCODE_INVALID", 10013),
   ("TRADE_RETCODE_INVALID_VOLUME", 10014),
   ("TRADE_RETCODE_INVALID_PRICE", 10015),
   ("TRADE_RETCODE_INVALID_STOPS", 10016),
   ("TRADE_RETCODE_MARKET_CLOSED", 10018),
   ("TRADE_RETCODE_NO_MONEY", 10019),
   ("TRADE_RETCODE_PRICE_CHANGED", 10020),
   ("TRADE_RETCODE_PRICE_OFF", 10021),
   ("TRADE_RETCODE_TRADE_DISABLED", 10017),
   ("TRADE_RETCODE_TIMEOUT", 10012),
   ("TRADE_RETCODE_ORDER_CHANGED", 10023),
   ("TRADE_RETCODE_TOO_MANY_REQUESTS", 10024),
   ("TRADE_RETCODE_CLIENT_DISABLES_AT", 10027),
   ("TRADE_RETCODE_LOCKED", 10028),
   ("TRADE_RETCODE_FROZEN", 10029)]

/-- getattr(mt5, name, None) over the SDK retcode constants. -/
def mt5Sdk (name : String) : Option Int :=
  (mt5SdkConsts.find? (fun p => p.1 == name)).map (fun p => p.2)

/-- util.py RETCODES = build_retcode_map(), at module import with the
real SDK values. -/
def RETCODES : List (Int × String) := build_retcode_map mt5Sdk

/-- util.py label_retcode(code): RETCODES.get(code, f-string UNKNOWN(code)). -/
def label_retcode (code : Int) : String :=
  dictGet RETCODES code ("UNKNOWN(" ++ toString code ++ ")")

/-! ## mt5_adapter.py: the MT5 gateway adapter -/

/-- MetaTrader5 SDK trade-action constant. -/
def TRADE_ACTION_DEAL : Int := 1

/-- MetaTrader5 SDK trade-action constant. -/
def TRADE_ACTION_PENDING : Int := 5

/-- MetaTrader5 SDK trade-action constant. -/
def TRADE_ACTION_SLTP : Int := 6

/-- MetaTrader5 SDK trade-action constant. -/
def TRADE_ACTION_REMOVE : Int := 8

/-- MetaTrader5 SDK order-type constant. -/
def ORDER_TYPE_BUY : Int := 0

/-- MetaTrader5 SDK order-type constant. -/
def ORDER_TYPE_SELL : Int := 1

/-- MetaTrader5 SDK order-type constant. -/
def ORDER_TYPE_BUY_LIMIT : Int := 2

/-- MetaTrader5 SDK order-type constant. -/
def ORDER_TYPE_SELL_LIMIT : Int := 3

/-- MetaTrader5 SDK order-type constant. -/
def ORDER_TYPE_BUY_STOP : Int := 4

/-- MetaTrader5 SDK order-type constant. -/
def ORDER_TYPE_SELL_STOP : Int := 5

/-- MetaTrader5 SDK order-type constant. -/
def ORDER_TYPE_BUY_STOP_LIMIT : Int := 6

/-- MetaTrader5 SDK order-type constant. -/
def ORDER_TYPE_SELL_STOP_LIMIT : Int := 7

/-- MetaTrader5 SDK time-in-force constant. -/
def ORDER_TIME_GTC : Int := 0

/-- MetaTrader5 SDK fill-mode constant. -/
def ORDER_FILLING_FOK : Int := 0

/-- MetaTrader5 SDK fill-mode constant. -/
def ORDER_FILLING_IOC : Int := 1

/-- MetaTrader5 SDK fill-mode constant. -/
def ORDER_FILLING_RETURN : Int := 2

/-- MetaTrader5 SDK position-type constant. -/
def POSITION_TYPE_BUY : Int := 0

/-- MetaTrader5 SDK position-type constant. -/
def POSITION_TYPE_SELL : Int := 1

/-- The trade-request dict handed to mt5.order_send; keys the adapter
does not put in a given request are modelled as none. -/
structure TradeRequest where
  action : Int
  symbol : String
  type : Option Int := none
  volume : Option ℚ := none
  price : Option ℚ := none
  stoplimit : Option ℚ := none
  sl : Option ℚ := none
  tp : Option ℚ := none
  deviation : Option Int := none
  type_time : Option Int := none
  type_filling : Option Int := none
  expiration : Option Int := none
  position : Option Int := none
  order : Option Int := none
  comment : String := ""
deriving DecidableEq, Repr

/-- The OrderSendResult object mt5.order_send may return; fields the
adapter reads via getattr(res, field, default) are optional here. -/
structure BrokerResult where
  retcode : Int
  comment : Option String := none
  order : Option Int := none
  deal : Option Int := none
  price : Option ℚ := none
  request_id : Option Int := none
  raw : Option (List (String × String)) := none
deriving DecidableEq, Repr

/-- A TradePosition object as returned by mt5.positions_get. -/
structure BrokerPosition where
  ticket : Int
  symbol : String
  type : Int
  volume : ℚ
  price_open : ℚ
  sl : ℚ
  tp : ℚ
  profit : ℚ
deriving DecidableEq, Repr

/-- Python exceptions the embedded code can raise: TradingError and its
SymbolNotAvailable subclass (errors.py), a KeyError from dict subscript,
an AttributeError from attribute access on None, and the storage layer's
integrity error re-raised by session_scope (config/db.py). -/
inductive PyError where
  | tradingError (msg : String)
  | symbolNotAvailable (msg : String)
  | keyError
  | attributeErrorNone
  | persistenceError (msg : String)
deriving DecidableEq, Repr

/-- The MetaTrader5 terminal session as the adapter observes it: the
SDK calls mt5_adapter.py makes, as an environment record. -/
structure MT5Env where
  symbol_info : String → Option SymbolInfoDTO
  symbol_info_tick : String → Option TickDTO
  positions_all : List BrokerPosition
  order_send : TradeRequest → Option BrokerResult
  last_error : Int × String

/-- mt5_adapter.py MT5Gateway.ensure_symbol: symbol_select then
symbol_info; None means SymbolNotAvailable. -/
def ensure_symbol (env : MT5Env) (symbol : String) : Except PyError SymbolInfoDTO :=
  match env.symbol_info symbol with
  | none => .error (.symbolNotAvailable (symbol ++ " not enabled on this account/server"))
  | some si => .ok si

/-- mt5_adapter.py MT5Gateway._fmt_res: normalize an optional broker
result into an OrderResultDTO; None maps to retcode -1 / NO_RESULT. -/
def fmt_res (env : MT5Env) (res : Option BrokerResult) : OrderResultDTO :=
  match res with
  | none =>
      { retcode := -1, label := "NO_RESULT", comment := "", order := none,
        deal := none, price := none, request_id := none,
        last_error := some env.last_error, raw := [] }
  | some r =>
      { retcode := r.retcode,
        label := label_retcode r.retcode,
        comment := r.comment.getD "",
        order := r.order,
        deal := r.deal,
        price := r.price,
        request_id := r.request_id,
        last_error := some env.last_error,
        raw := r.raw.getD [] }

/-- mt5_adapter.py MT5Gateway.market_order, up to (not including) the
order_send call: derive price from the tick, resolve sl_dist/tp_dist,
pick the fill mode and build the trade request. -/
def market_order_request (env : MT5Env) (req : OrderRequestDTO) :
    Except PyError TradeRequest :=
  match ensure_symbol env req.symbol with
  | .error e => .error e
  | .ok si =>
  match env.symbol_info_tick req.symbol with
  | none => .error (.tradingError ("No tick for " ++ req.symbol))
  | some t =>
    let price : ℚ := if req.side = .BUY then t.ask else t.bid
    let sl : Option ℚ :=
      match req.sl_dist with
      | some d => some (pyRound (if req.side = .BUY then price - d else price + d) si.digits)
      | none => req.sl
    let tp : Option ℚ :=
      match req.tp_dist with
      | some d => some (pyRound (if req.side = .BUY then price + d else price - d) si.digits)
      | none => req.tp
    let fill : Int :=
      if si.filling_mode = ORDER_FILLING_FOK ∨ si.filling_mode = ORDER_FILLING_IOC ∨
          si.filling_mode = ORDER_FILLING_RETURN then si.filling_mode
      else ORDER_FILLING_IOC
    .ok { action := TRADE_ACTION_DEAL,
          symbol := req.symbol,
          type := some (if req.side = .BUY then ORDER_TYPE_BUY else ORDER_TYPE_SELL),
          volume := some req.volume,
          price := some price,
          sl := some (pyOrZero sl),
          tp := some (pyOrZero tp),
          deviation := some req.deviation,
          type_time := some ORDER_TIME_GTC,
          type_filling := some fill,
          comment := req.comment }

/-- The gateway keeps no state; sends to the terminal are observed as a
trace of the trade requests passed to mt5.order_send. -/
structure GwTrace where
  sent : List TradeRequest
deriving DecidableEq, Repr

/-- mt5_adapter.py MT5Gateway.market_order: build the request, send it,
normalize the response. -/
def market_order (env : MT5Env) (tr : GwTrace) (req : OrderRequestDTO) :
    Except PyError OrderResultDTO × GwTrace :=
  match market_order_request env req with
  | .error e => (.error e, tr)
  | .ok r => (.ok (fmt_res env (env.order_send r)), ⟨tr.sent ++ [r]⟩)

/-- mt5_adapter.py pending_order's kind_map dict: OrderKind.MARKET is
not a key (subscripting with it would raise KeyError). -/
def kind_map (k : OrderKind) : Option Int :=
  match k with
  | .MARKET => none
  | .BUY_LIMIT => some ORDER_TYPE_BUY_LIMIT
  | .SELL_LIMIT => some ORDER_TYPE_SELL_LIMIT
  | .BUY_STOP => some ORDER_TYPE_BUY_STOP
  | .SELL_STOP => some ORDER_TYPE_SELL_STOP
  | .BUY_STOP_LIMIT => some ORDER_TYPE_BUY_STOP_LIMIT
  | .SELL_STOP_LIMIT => some ORDER_TYPE_SELL_STOP_LIMIT

/-- mt5_adapter.py MT5Gateway.pending_order, up to the order_send call:
validate the kind and price, then build the pending trade request. -/
def pending_order_request (env : MT5Env) (req : OrderRequestDTO) :
    Except PyError TradeRequest :=
  match ensure_symbol env req.symbol with
  | .error e => .error e
  | .ok _si =>
  if req.kind = .MARKET then
    .error (.tradingError "Use market_order() for OrderKind.MARKET")
  else
    match req.price with
    | none => .error (.tradingError "Pending order requires price")
    | some price =>
      match kind_map req.kind with
      | none => .error .keyError
      | some ty =>
        .ok { action := TRADE_ACTION_PENDING,
              symbol := req.symbol,
              type := some ty,
              volume := some req.volume,
              price := some price,
              stoplimit := some (pyOrZero req.stoplimit_price),
              sl := some (pyOrZero req.sl),
              tp := some (pyOrZero req.tp),
              deviation := some req.deviation,
              type_time := some ORDER_TIME_GTC,
              type_filling := some ORDER_FILLING_RETURN,
              expiration := some 0,
              comment := req.comment }

/-- mt5_adapter.py MT5Gateway.pending_order: build, send, normalize. -/
def pending_order (env : MT5Env) (tr : GwTrace) (req : OrderRequestDTO) :
    Except PyError OrderResultDTO × GwTrace :=
  match pending_order_request env req with
  | .error e => (.error e, tr)
  | .ok r => (.ok (fmt_res env (env.order_send r)), ⟨tr.sent ++ [r]⟩)

/-- mt5_adapter.py MT5Gateway.positions: positions_get (filtered by
symbol when one is given and truthy), mapped to PositionDTO. -/
def gw_positions (env : MT5Env) (symbol : Option String) : List PositionDTO :=
  let ps :=
    match symbol with
    | some s => if s = "" then env.positions_all
                else env.positions_all.filter (fun p => p.symbol == s)
    | none => env.positions_all
  ps.map (fun p =>
    { ticket := p.ticket, symbol := p.symbol,
      side := if p.type = POSITION_TYPE_BUY then .BUY else .SELL,
      volume := p.volume, price_open := p.price_open,
      sl := p.sl, tp := p.tp, profit := p.profit })

/-- mt5_adapter.py MT5Gateway.modify_position_sltp, up to order_send:
look up the position's symbol and build the SLTP request. -/
def modify_position_sltp_request (env : MT5Env) (position_ticket : Int)
    (sl tp : ℚ) : Except PyError TradeRequest :=
  match env.positions_all.find? (fun p => p.ticket == position_ticket) with
  | none => .error (.tradingError ("Position " ++ toString position_ticket ++ " not found"))
  | some pos =>
    .ok { action := TRADE_ACTION_SLTP,
          position := some position_ticket,
          symbol := pos.symbol,
          sl := some sl,
          tp := some tp,
          comment := "py-modify" }

/-- mt5_adapter.py MT5Gateway.modify_position_sltp: build, send, normalize. -/
def modify_position_sltp (env : MT5Env) (tr : GwTrace) (position_ticket : Int)
    (sl tp : ℚ) : Except PyError OrderResultDTO × GwTrace :=
  match modify_position_sltp_request env position_ticket sl tp with
  | .error e => (.error e, tr)
  | .ok r => (.ok (fmt_res env (env.order_send r)), ⟨tr.sent ++ [r]⟩)

/-- mt5_adapter.py MT5Gateway.close_position, up to order_send: find the
position, read the tick and build the opposing deal request. The source
evaluates tick.bid / tick.ask without a None check, so an absent tick is
an AttributeError on None, not a TradingError. -/
def close_position_request (env : MT5Env) (position_ticket : Int)
    (deviation : Int) : Except PyError TradeRequest :=
  match env.positions_all.find? (fun p => p.ticket == position_ticket) with
  | none => .error (.tradingError ("Position " ++ toString position_ticket ++ " not found"))
  | some pos =>
    let is_buy := pos.type = POSITION_TYPE_BUY
    match env.symbol_info_tick pos.symbol with
    | none => .error .attributeErrorNone
    | some tick =>
      let price : ℚ := if is_buy then tick.bid else tick.ask
      .ok { action := TRADE_ACTION_DEAL,
            symbol := pos.symbol,
            volume := some pos.volume,
            type := some (if is_buy then ORDER_TYPE_SELL else ORDER_TYPE_BUY),
            position := some position_ticket,
            price := some price,
            deviation := some deviation,
            type_time := some ORDER_TIME_GTC,
            type_filling := some ORDER_FILLING_IOC,
            comment := "py-close" }

/-- mt5_adapter.py MT5Gateway.close_position: build, send, normalize. -/
def close_position (env : MT5Env) (tr : GwTrace) (position_ticket : Int)
    (deviation : Int) : Except PyError OrderResultDTO × GwTrace :=
  match close_position_request env position_ticket deviation with
  | .error e => (.error e, tr)
  | .ok r => (.ok (fmt_res env (env.order_send r)), ⟨tr.sent ++ [r]⟩)

/-! ## db_models.py / config/db.py / app/services/base.py: persistence -/

/-- db_models.py OrderRow, projected to the columns the service fills
(id and created_at are server-assigned and not modelled). -/
structure OrderRow where
  broker_order : Option Int
  broker_deal : Option Int
  symbol : String
  side : String
  kind : String
  volume : ℚ
  requested_price : Option ℚ
  filled_price : Option ℚ
  sl : Option ℚ
  tp : Option ℚ
  retcode : Int
  retcode_label : String
  ret_comment : String
  request_id : Option Int
deriving DecidableEq, Repr

/-- db_models.py DealRow, projected to the columns the service fills. -/
structure DealRow where
  deal_ticket : Option Int
  order_ticket : Option Int
  symbol : String
  side : String
  volume : ℚ
  price : ℚ
  profit : Option ℚ
  commission : Option ℚ
  swap : Option ℚ
  time : Option Int
deriving DecidableEq, Repr

/-- db_models.py PositionSnapRow, projected to the columns the service fills. -/
structure PositionSnapRow where
  symbol : String
  ticket : Int
  side : String
  volume : ℚ
  price_open : ℚ
  sl : ℚ
  tp : ℚ
  profit : ℚ
deriving DecidableEq, Repr

/-- A row of one of the three tables. -/
inductive Row where
  | order (o : OrderRow)
  | deal (d : DealRow)
  | possnap (p : PositionSnapRow)
deriving DecidableEq, Repr

/-- config/db.py session_scope: each BaseService.create call runs in its
own transaction; the store is the list of committed transactions, each a
list of rows. -/
structure Store where
  txns : List (List Row)
deriving DecidableEq, Repr

/-- The committed rows of the store. -/
def Store.rows (s : Store) : List Row := s.txns.flatten

/-- db_models.py constraints a recorder write can violate:
orders.broker_order and deals.deal_ticket are unique columns (SQL
uniqueness ignores NULLs), and deals.deal_ticket and deals.time are
declared NOT NULL — time with no default of any kind, so inserting a
deal row with time = None always fails. -/
def rowViolates (existing : List Row) (r : Row) : Bool :=
  match r with
  | .order o =>
      match o.broker_order with
      | none => false
      | some n => existing.any (fun e =>
          match e with
          | .order e2 => e2.broker_order == some n
          | _ => false)
  | .deal d =>
      match d.time with
      | none => true
      | some _ =>
        match d.deal_ticket with
        | none => true
        | some n => existing.any (fun e =>
            match e with
            | .deal e2 => e2.deal_ticket == some n
            | _ => false)
  | .possnap _ => false

/-- app/services/base.py BaseService.create inside config/db.py
session_scope: on an integrity error the transaction is rolled back and
the exception re-raised; on success the one-row transaction commits. -/
def Store.create (s : Store) (r : Row) : Except PyError Unit × Store :=
  if rowViolates s.rows r then
    (.error (.persistenceError "IntegrityError"), s)
  else
    (.ok (), ⟨s.txns ++ [[r]]⟩)

/-! ## app/services/trading_service.py: the trading service -/

/-- trading_service.py TradingService._record_order: the OrderRow built
from the request and result. -/
def orderRowOf (req : OrderRequestDTO) (res : OrderResultDTO) : OrderRow :=
  { broker_order := res.order,
    broker_deal := res.deal,
    symbol := req.symbol,
    side := req.side.value,
    kind := req.kind.value,
    volume := req.volume,
    requested_price := req.price,
    filled_price := res.price,
    sl := req.sl,
    tp := req.tp,
    retcode := res.retcode,
    retcode_label := res.label,
    ret_comment := res.comment,
    request_id := res.request_id }

/-- trading_service.py TradingService._record_order: the DealRow built
from the request and result (written only when res.deal is truthy). -/
def dealRowOf (req : OrderRequestDTO) (res : OrderResultDTO) : DealRow :=
  { deal_ticket := res.deal,
    order_ticket := res.order,
    symbol := req.symbol,
    side := req.side.value,
    volume := req.volume,
    price := pyOrZero res.price,
    profit := none,
    commission := none,
    swap := none,
    time := none }

/-- trading_service.py TradingService._record_order: one orders-repo
create, then, if res.deal is truthy, one deals-repo create (each in its
own session_scope transaction). -/
def record_order (st : Store) (req : OrderRequestDTO) (res : OrderResultDTO) :
    Except PyError Unit × Store :=
  match st.create (.order (orderRowOf req res)) with
  | (.error e, st1) => (.error e, st1)
  | (.ok _, st1) =>
    if optTruthy res.deal then
      st1.create (.deal (dealRowOf req res))
    else
      (.ok (), st1)

/-- trading_service.py TradingService._record_order_change: the OrderRow
for a modify/close attempt (broker_order falls back to the position
ticket via Python or). -/
def changeRowOf (ticket : Int) (res : OrderResultDTO) : OrderRow :=
  { broker_order := some (pyOrInt res.order ticket),
    broker_deal := res.deal,
    symbol := "",
    side := "",
    kind := "MODIFY",
    volume := 0,
    requested_price := none,
    filled_price := res.price,
    sl := none,
    tp := none,
    retcode := res.retcode,
    retcode_label := res.label,
    ret_comment := res.comment,
    request_id := res.request_id }

/-- trading_service.py TradingService._record_order_change. -/
def record_order_change (st : Store) (ticket : Int) (res : OrderResultDTO) :
    Except PyError Unit × Store :=
  st.create (.order (changeRowOf ticket res))

/-- trading_service.py TradingService._record_positions: the snapshot
row for one position. -/
def snapRowOf (p : PositionDTO) : PositionSnapRow :=
  { symbol := p.symbol, ticket := p.ticket, side := p.side.value,
    volume := p.volume, price_open := p.price_open,
    sl := p.sl, tp := p.tp, profit := p.profit }

/-- trading_service.py TradingService._record_positions: one
positions-repo create per position. -/
def record_positions (st : Store) (ps : List PositionDTO) :
    Except PyError Unit × Store :=
  match ps with
  | [] => (.ok (), st)
  | p :: rest =>
    match st.create (.possnap (snapRowOf p)) with
    | (.error e, st1) => (.error e, st1)
    | (.ok _, st1) => record_positions st1 rest

/-- trading_service.py TradingService.buy: the OrderRequestDTO it builds. -/
def buyRequest (symbol : String) (volume : ℚ) (sl_dist tp_dist : Option ℚ)
    (deviation : Int) (comment : String) : OrderRequestDTO :=
  { symbol := symbol, side := .BUY, volume := volume, kind := .MARKET,
    sl_dist := sl_dist, tp_dist := tp_dist, deviation := deviation,
    comment := comment }

/-- trading_service.py TradingService.sell: the OrderRequestDTO it builds. -/
def sellRequest (symbol : String) (volume : ℚ) (sl_dist tp_dist : Option ℚ)
    (deviation : Int) (comment : String) : OrderRequestDTO :=
  { symbol := symbol, side := .SELL, volume := volume, kind := .MARKET,
    sl_dist := sl_dist, tp_dist := tp_dist, deviation := deviation,
    comment := comment }

/-- trading_service.py TradingService.buy: market order through the
gateway, then _record_order, then return the result. A raised
persistence error propagates and the result is not returned. -/
def svc_buy (env : MT5Env) (st : Store) (tr : GwTrace) (symbol : String)
    (volume : ℚ) (sl_dist tp_dist : Option ℚ) (deviation : Int)
    (comment : String) : Except PyError OrderResultDTO × Store × GwTrace :=
  let req := buyRequest symbol volume sl_dist tp_dist deviation comment
  match market_order env tr req with
  | (.error e, tr1) => (.error e, st, tr1)
  | (.ok res, tr1) =>
    match record_order st req res with
    | (.error e, st1) => (.error e, st1, tr1)
    | (.ok _, st1) => (.ok res, st1, tr1)

/-- trading_service.py TradingService.sell. -/
def svc_sell (env : MT5Env) (st : Store) (tr : GwTrace) (symbol : String)
    (volume : ℚ) (sl_dist tp_dist : Option ℚ) (deviation : Int)
    (comment : String) : Except PyError OrderResultDTO × Store × GwTrace :=
  let req := sellRequest symbol volume sl_dist tp_dist deviation comment
  match market_order env tr req with
  | (.error e, tr1) => (.error e, st, tr1)
  | (.ok res, tr1) =>
    match record_order st req res with
    | (.error e, st1) => (.error e, st1, tr1)
    | (.ok _, st1) => (.ok res, st1, tr1)

/-- trading_service.py TradingService.place_pending: the OrderRequestDTO
it builds (sl and tp default to 0.0 floats here, not None). -/
def pendingRequest (symbol : String) (side : TradeSide) (kind : OrderKind)
    (price : ℚ) (volume : ℚ) (sl tp : ℚ) (stoplimit_price : Option ℚ)
    (deviation : Int) (comment : String) : OrderRequestDTO :=
  { symbol := symbol, side := side, volume := volume, kind := kind,
    price := some price, stoplimit_price := stoplimit_price,
    sl := some sl, tp := some tp, deviation := deviation, comment := comment }

/-- trading_service.py TradingService.place_pending. -/
def svc_place_pending (env : MT5Env) (st : Store) (tr : GwTrace)
    (symbol : String) (side : TradeSide) (kind : OrderKind) (price : ℚ)
    (volume : ℚ) (sl tp : ℚ) (stoplimit_price : Option ℚ) (deviation : Int)
    (comment : String) : Except PyError OrderResultDTO × Store × GwTrace :=
  let req := pendingRequest symbol side kind price volume sl tp stoplimit_price
    deviation comment
  match pending_order env tr req with
  | (.error e, tr1) => (.error e, st, tr1)
  | (.ok res, tr1) =>
    match record_order st req res with
    | (.error e, st1) => (.error e, st1, tr1)
    | (.ok _, st1) => (.ok res, st1, tr1)

/-- trading_service.py TradingService.modify_sltp. -/
def svc_modify_sltp (env : MT5Env) (st : Store) (tr : GwTrace)
    (position_ticket : Int) (sl tp : ℚ) :
    Except PyError OrderResultDTO × Store × GwTrace :=
  match modify_position_sltp env tr position_ticket sl tp with
  | (.error e, tr1) => (.error e, st, tr1)
  | (.ok res, tr1) =>
    match record_order_change st position_ticket res with
    | (.error e, st1) => (.error e, st1, tr1)
    | (.ok _, st1) => (.ok res, st1, tr1)

/-- trading_service.py TradingService.close. -/
def svc_close (env : MT5Env) (st : Store) (tr : GwTrace)
    (position_ticket : Int) (deviation : Int) :
    Except PyError OrderResultDTO × Store × GwTrace :=
  match close_position env tr position_ticket deviation with
  | (.error e, tr1) => (.error e, st, tr1)
  | (.ok res, tr1) =>
    match record_order_change st position_ticket res with
    | (.error e, st1) => (.error e, st1, tr1)
    | (.ok _, st1) => (.ok res, st1, tr1)

/-- trading_service.py TradingService.close_all loop body: close each
listed position, record each result, collect them in order; a raised
exception aborts the remainder of the loop. -/
def close_all_loop (env : MT5Env) (st : Store) (tr : GwTrace) (deviation : Int)
    (ps : List PositionDTO) (out : List OrderResultDTO) :
    Except PyError (List OrderResultDTO) × Store × GwTrace :=
  match ps with
  | [] => (.ok out, st, tr)
  | p :: rest =>
    match close_position env tr p.ticket deviation with
    | (.error e, tr1) => (.error e, st, tr1)
    | (.ok res, tr1) =>
      match record_order_change st p.ticket res with
      | (.error e, st1) => (.error e, st1, tr1)
      | (.ok _, st1) => close_all_loop env st1 tr1 deviation rest (out ++ [res])

/-- trading_service.py TradingService.close_all. -/
def svc_close_all (env : MT5Env) (st : Store) (tr : GwTrace) (symbol : String)
    (deviation : Int) : Except PyError (List OrderResultDTO) × Store × GwTrace :=
  close_all_loop env st tr deviation (gw_positions env (some symbol)) []

/-- trading_service.py TradingService.positions: fetch live positions,
snapshot them, return them. -/
def svc_positions (env : MT5Env) (st : Store) (symbol : Option String) :
    Except PyError (List PositionDTO) × Store :=
  let ps := gw_positions env symbol
  match record_positions st ps with
  | (.error e, st1) => (.error e, st1)
  | (.ok _, st1) => (.ok ps, st1)

/-! ## Theorems -/

/-- Helper: pyRoundHalfEven of an integer rational is that integer. -/
theorem pyRoundHalfEven_intCast (n : ℤ) : pyRoundHalfEven ((n : ℚ)) = n := by
  unfold pyRoundHalfEven
  norm_num

/-- Helper: the BUY scenario stop-loss value: round(2400 - 2, 2) = 2398. -/
theorem pyRound_buy_sl : pyRound ((2400 : ℚ) - 2) 2 = 2398 := by
  have h1 : ((2400 : ℚ) - 2) * (10 : ℚ) ^ (2 : ℕ) = ((239800 : ℤ) : ℚ) := by norm_num
  unfold pyRound
  rw [h1, pyRoundHalfEven_intCast]
  norm_num

/-- Helper: the BUY scenario take-profit value: round(2400 + 2, 2) = 2402. -/
theorem pyRound_buy_tp : pyRound ((2400 : ℚ) + 2) 2 = 2402 := by
  have h1 : ((2400 : ℚ) + 2) * (10 : ℚ) ^ (2 : ℕ) = ((240200 : ℤ) : ℚ) := by norm_num
  unfold pyRound
  rw [h1, pyRoundHalfEven_intCast]
  norm_num

/-- Claim C7: label_retcode is total: every (code, label) binding of the
retcode map built from the SDK yields that fixed label, and every code
outside the map yields the synthetic string UNKNOWN(code). -/
theorem c7_label_retcode_taxonomy :
    (∀ p ∈ RETCODES, label_retcode p.1 = p.2) ∧
    (∀ code : Int, code ∉ RETCODES.map Prod.fst →
      label_retcode code = "UNKNOWN(" ++ toString code ++ ")") := by
  constructor
  · decide
  · intro code h
    unfold label_retcode dictGet
    have hf : RETCODES.find? (fun p => p.1 == code) = none := by
      rw [List.find?_eq_none]
      intro x hx
      simp only [beq_iff_eq]
      intro hc
      exact h (List.mem_map.mpr ⟨x, hx, hc⟩)
    rw [hf]

/-- Witness for C7: the recognized code 10009 maps to DONE and the
unrecognized code 99999 maps to UNKNOWN(99999). -/
theorem c7_label_retcode_taxonomy_witness :
    label_retcode 10009 = "DONE" ∧ label_retcode 99999 = "UNKNOWN(99999)" :=
  ⟨c7_label_retcode_taxonomy.1 (10009, "DONE") (by decide),
   c7_label_retcode_taxonomy.2 99999 (by decide)⟩

/-- Claim C8: a null broker response to a trade request is normalized to
an OrderResultDTO with retcode -1, label NO_RESULT, null order/deal/
price/request-id fields and the session's last diagnostic error in
last_error; market_order returns it normally instead of raising. -/
theorem c8_null_broker_result_normalized :
    (∀ env : MT5Env, fmt_res env none =
      { retcode := -1, label := "NO_RESULT", comment := "", order := none,
        deal := none, price := none, request_id := none,
        last_error := some env.last_error, raw := [] }) ∧
    (∀ (env : MT5Env) (tr : GwTrace) (req : OrderRequestDTO) (r : TradeRequest),
      market_order_request env req = .ok r → env.order_send r = none →
      market_order env tr req = (.ok (fmt_res env none), ⟨tr.sent ++ [r]⟩)) := by
  constructor
  · intro env
    rfl
  · intro env tr req r h hs
    simp only [market_order, h, hs]

/-- The XAUUSD instrument used in concrete scenarios (digits = 2). -/
def siXAU : SymbolInfoDTO :=
  { name := "XAUUSD", digits := 2, point := 1/100, volume_min := 1/100,
    volume_step := 1/100, volume_max := 100, trade_mode := 4,
    filling_mode := 1, stops_level := 0 }

/-- The XAUUSD tick used in concrete scenarios (ask = 2400.00). -/
def tXAU : TickDTO := { time := 0, bid := 23995/10, ask := 2400, last := 0 }

/-- An MT5 session quoting XAUUSD whose order_send yields no result. -/
def envXAU : MT5Env :=
  { symbol_info := fun s => if s = "XAUUSD" then some siXAU else none,
    symbol_info_tick := fun s => if s = "XAUUSD" then some tXAU else none,
    positions_all := [],
    order_send := fun _ => none,
    last_error := (1, "ipc timeout") }

/-- A market BUY request for 0.01 lots XAUUSD without SL/TP. -/
def reqC8 : OrderRequestDTO := buyRequest "XAUUSD" (1/100) none none 120 "py-buy"

/-- The trade request market_order builds for reqC8 in envXAU. -/
def rC8 : TradeRequest :=
  { action := TRADE_ACTION_DEAL, symbol := "XAUUSD", type := some ORDER_TYPE_BUY,
    volume := some (1/100), price := some 2400, sl := some 0, tp := some 0,
    deviation := some 120, type_time := some ORDER_TIME_GTC,
    type_filling := some 1, comment := "py-buy" }

/-- Witness for C8: in envXAU, whose order_send returns None, a market
buy returns the NO_RESULT OrderResultDTO with the session diagnostics. -/
theorem c8_null_broker_result_normalized_witness :
    market_order envXAU ⟨[]⟩ reqC8 = (.ok (fmt_res envXAU none), ⟨[rC8]⟩) ∧
    (fmt_res envXAU none).retcode = -1 ∧
    (fmt_res envXAU none).label = "NO_RESULT" ∧
    (fmt_res envXAU none).last_error = some (1, "ipc timeout") :=
  ⟨c8_null_broker_result_normalized.2 envXAU ⟨[]⟩ reqC8 rC8 rfl rfl, rfl, rfl, rfl⟩

/-- Claim C2: for a market order with a stop-loss distance d, the request
sent to the broker carries sl = round(ask - d, digits) for BUY and
sl = round(bid + d, digits) for SELL, and with a take-profit distance d
it carries tp = round(ask + d, digits) for BUY and round(bid - d, digits)
for SELL. -/
theorem c2_market_order_distance_derivation :
    ∀ (env : MT5Env) (req : OrderRequestDTO) (si : SymbolInfoDTO) (t : TickDTO)
      (r : TradeRequest) (d : ℚ),
      env.symbol_info req.symbol = some si →
      env.symbol_info_tick req.symbol = some t →
      market_order_request env req = .ok r →
      ((req.side = .BUY → req.sl_dist = some d →
          r.sl = some (pyRound (t.ask - d) si.digits)) ∧
       (req.side = .BUY → req.tp_dist = some d →
          r.tp = some (pyRound (t.ask + d) si.digits)) ∧
       (req.side = .SELL → req.sl_dist = some d →
          r.sl = some (pyRound (t.bid + d) si.digits)) ∧
       (req.side = .SELL → req.tp_dist = some d →
          r.tp = some (pyRound (t.bid - d) si.digits))) := by
  intro env req si t r d hsi ht hr
  simp only [market_order_request, ensure_symbol, hsi, ht] at hr
  have hr2 := hr.symm
  injection hr2 with hr3
  subst hr3
  refine ⟨?_, ?_, ?_, ?_⟩ <;> intro hside hdist <;>
    simp [hside, hdist, pyOrZero]

/-- The scenario request: BUY 0.01 lots XAUUSD, sl_dist = 2, tp_dist = 2. -/
def reqC2 : OrderRequestDTO := buyRequest "XAUUSD" (1/100) (some 2) (some 2) 120 "py-buy"

/-- The trade request market_order builds for reqC2 in envXAU. -/
def rC2 : TradeRequest :=
  { action := TRADE_ACTION_DEAL, symbol := "XAUUSD", type := some ORDER_TYPE_BUY,
    volume := some (1/100), price := some 2400,
    sl := some (pyRound (2400 - 2) 2), tp := some (pyRound (2400 + 2) 2),
    deviation := some 120, type_time := some ORDER_TIME_GTC,
    type_filling := some 1, comment := "py-buy" }

/-- Witness for C2: the spec scenario — BUY XAUUSD at ask 2400.00 with
sl_dist = tp_dist = 2.0 and digits = 2 resolves sl = 2398.00 and
tp = 2402.00 in the request sent to the broker. -/
theorem c2_market_order_distance_derivation_witness :
    rC2.sl = some 2398 ∧ rC2.tp = some 2402 := by
  have h := c2_market_order_distance_derivation envXAU reqC2 siXAU tXAU rC2 2
    rfl rfl rfl
  constructor
  · rw [h.1 rfl rfl]
    exact congrArg some pyRound_buy_sl
  · rw [h.2.1 rfl rfl]
    exact congrArg some pyRound_buy_tp

/-- Claim C10: when the ticket matches an open position but no tick is
available for its symbol, close_position fails with an AttributeError
from dereferencing None (the unguarded tick.bid / tick.ask access), not
with the TradingError used for the no-quote case elsewhere, and it does
not return an OrderResultDTO. -/
theorem c10_close_position_none_tick_crash :
    ∀ (env : MT5Env) (tr : GwTrace) (ticket : Int) (deviation : Int)
      (pos : BrokerPosition),
      env.positions_all.find? (fun p => p.ticket == ticket) = some pos →
      env.symbol_info_tick pos.symbol = none →
      close_position env tr ticket deviation = (.error .attributeErrorNone, tr) ∧
      (∀ msg, (close_position env tr ticket deviation).1 ≠
        .error (.tradingError msg)) ∧
      (∀ res tr2, close_position env tr ticket deviation ≠ (.ok res, tr2)) := by
  intro env tr ticket dev pos hf ht
  have h : close_position env tr ticket dev = (.error .attributeErrorNone, tr) := by
    simp [close_position, close_position_request, hf, ht]
  refine ⟨h, ?_, ?_⟩
  · intro msg
    rw [h]
    simp
  · intro res tr2
    rw [h]
    simp

/-- The open position used in the C10 scenario. -/
def pC10 : BrokerPosition :=
  { ticket := 9, symbol := "EURUSD", type := 0, volume := 1, price_open := 11/10,
    sl := 0, tp := 0, profit := 0 }

/-- An MT5 session with one open EURUSD position and no tick available. -/
def envC10 : MT5Env :=
  { symbol_info := fun _ => none,
    symbol_info_tick := fun _ => none,
    positions_all := [pC10],
    order_send := fun _ => none,
    last_error := (0, "") }

/-- Witness for C10: closing position 9 in envC10 hits the unguarded
None dereference. -/
theorem c10_close_position_none_tick_crash_witness :
    close_position envC10 ⟨[]⟩ 9 120 = (.error .attributeErrorNone, ⟨[]⟩) :=
  (c10_close_position_none_tick_crash envC10 ⟨[]⟩ 9 120 pC10 rfl rfl).1

/-- An MT5 session exposing no symbols at all. -/
def envNoSym : MT5Env :=
  { symbol_info := fun _ => none,
    symbol_info_tick := fun _ => none,
    positions_all := [],
    order_send := fun _ => none,
    last_error := (0, "") }

/-- A MARKET-kind request against an unavailable symbol. -/
def reqC4m : OrderRequestDTO :=
  { symbol := "GHOST", side := .BUY, volume := 1, kind := .MARKET }

/-- Counterexample for C4: pending_order on a MARKET-kind request does
not always fail with the InvalidRequest-style TradingError — when the
symbol is unavailable, ensure_symbol (called first) raises
SymbolNotAvailable instead. -/
theorem c4_pending_order_validation_counterexample :
    pending_order envNoSym ⟨[]⟩ reqC4m =
      (.error (.symbolNotAvailable "GHOST not enabled on this account/server"), ⟨[]⟩) ∧
    (∀ msg, (PyError.symbolNotAvailable "GHOST not enabled on this account/server") ≠
      .tradingError msg) := by
  refine ⟨rfl, ?_⟩
  intro msg h
  exact PyError.noConfusion h

/-- Claim C4 (amended): no trade request is ever sent for a MARKET kind
or a missing price; and provided the symbol resolves, a MARKET kind
fails with the TradingError telling the caller to use market_order, and
a non-MARKET kind with a missing price fails with the TradingError
demanding a price. When the symbol does not resolve, the failure is
SymbolNotAvailable instead. -/
theorem c4_pending_order_validation :
    ∀ (env : MT5Env) (tr : GwTrace) (req : OrderRequestDTO),
      ((req.kind = .MARKET ∨ req.price = none) →
        (pending_order env tr req).2 = tr) ∧
      (∀ si, env.symbol_info req.symbol = some si →
        (req.kind = .MARKET →
          pending_order env tr req =
            (.error (.tradingError "Use market_order() for OrderKind.MARKET"), tr)) ∧
        (req.kind ≠ .MARKET → req.price = none →
          pending_order env tr req =
            (.error (.tradingError "Pending order requires price"), tr))) := by
  intro env tr req
  constructor
  · intro h
    cases hsym : env.symbol_info req.symbol with
    | none =>
      simp [pending_order, pending_order_request, ensure_symbol, hsym]
    | some si =>
      by_cases hk : req.kind = .MARKET
      · simp [pending_order, pending_order_request, ensure_symbol, hsym, hk]
      · rcases h with h | h
        · exact absurd h hk
        · simp [pending_order, pending_order_request, ensure_symbol, hsym, hk, h]
  · intro si hsi
    constructor
    · intro hk
      simp [pending_order, pending_order_request, ensure_symbol, hsi, hk]
    · intro hk hp
      simp [pending_order, pending_order_request, ensure_symbol, hsi, hk, hp]

/-- The EURUSD instrument used in concrete scenarios (digits = 5). -/
def siEUR : SymbolInfoDTO :=
  { name := "EURUSD", digits := 5, point := 1/100000, volume_min := 1/100,
    volume_step := 1/100, volume_max := 100, trade_mode := 4,
    filling_mode := 2, stops_level := 0 }

/-- The EURUSD tick used in concrete scenarios. -/
def tEUR : TickDTO := { time := 0, bid := 11/10, ask := 111/100, last := 0 }

/-- An MT5 session quoting EURUSD with no open positions. -/
def envEUR : MT5Env :=
  { symbol_info := fun s => if s = "EURUSD" then some siEUR else none,
    symbol_info_tick := fun s => if s = "EURUSD" then some tEUR else none,
    positions_all := [],
    order_send := fun _ => none,
    last_error := (0, "") }

/-- A MARKET-kind request on the available symbol EURUSD. -/
def reqC4w1 : OrderRequestDTO :=
  { symbol := "EURUSD", side := .BUY, volume := 1, kind := .MARKET,
    price := some 1 }

/-- A BUY_LIMIT request on EURUSD with no price. -/
def reqC4w2 : OrderRequestDTO :=
  { symbol := "EURUSD", side := .BUY, volume := 1, kind := .BUY_LIMIT }

/-- Witness for C4 (amended): with EURUSD available, a MARKET kind and a
missing price each fail with the corresponding TradingError and nothing
is sent. -/
theorem c4_pending_order_validation_witness :
    pending_order envEUR ⟨[]⟩ reqC4w1 =
      (.error (.tradingError "Use market_order() for OrderKind.MARKET"), ⟨[]⟩) ∧
    pending_order envEUR ⟨[]⟩ reqC4w2 =
      (.error (.tradingError "Pending order requires price"), ⟨[]⟩) :=
  ⟨((c4_pending_order_validation envEUR ⟨[]⟩ reqC4w1).2 siEUR rfl).1 rfl,
   ((c4_pending_order_validation envEUR ⟨[]⟩ reqC4w2).2 siEUR rfl).2
     (by decide) rfl⟩

/-- A pending BUY_LIMIT on EURUSD at 2000 with sl_dist = 5 and no absolute sl. -/
def reqC3a : OrderRequestDTO :=
  { symbol := "EURUSD", side := .BUY, volume := 1, kind := .BUY_LIMIT,
    price := some 2000, sl_dist := some 5 }

/-- The same pending request without the stop-loss distance. -/
def reqC3b : OrderRequestDTO :=
  { symbol := "EURUSD", side := .BUY, volume := 1, kind := .BUY_LIMIT,
    price := some 2000 }

/-- The trade request pending_order builds for reqC3a (and reqC3b). -/
def rC3 : TradeRequest :=
  { action := TRADE_ACTION_PENDING, symbol := "EURUSD",
    type := some ORDER_TYPE_BUY_LIMIT, volume := some 1, price := some 2000,
    stoplimit := some 0, sl := some 0, tp := some 0, deviation := some 120,
    type_time := some ORDER_TIME_GTC, type_filling := some ORDER_FILLING_RETURN,
    expiration := some 0, comment := "py-trade" }

/-- Helper: round(2000 - 5, 5) = 1995, the absolute stop a distance of 5
below price 2000 would convert to at 5 digits. -/
theorem pyRound_pending_sl : pyRound ((2000 : ℚ) - 5) 5 = 1995 := by
  have h1 : ((2000 : ℚ) - 5) * (10 : ℚ) ^ (5 : ℕ) = ((199500000 : ℤ) : ℚ) := by
    norm_num
  unfold pyRound
  rw [h1, pyRoundHalfEven_intCast]
  norm_num

/-- Counterexample for C3: pending_order does not convert a given
stop-loss distance into an absolute price — the request it sends is
identical with and without sl_dist, carrying sl = 0 rather than the
distance-derived absolute price 1995. -/
theorem c3_distance_resolution_counterexample :
    pending_order_request envEUR reqC3a = pending_order_request envEUR reqC3b ∧
    pending_order_request envEUR reqC3a = .ok rC3 ∧
    rC3.sl = some 0 ∧
    pyRound ((2000 : ℚ) - 5) 5 = 1995 ∧
    some (0 : ℚ) ≠ some (1995 : ℚ) := by
  refine ⟨rfl, rfl, rfl, pyRound_pending_sl, ?_⟩
  intro h
  have h2 : (0 : ℚ) = 1995 := by injection h
  norm_num at h2

/-- Claim C3 (amended): market_order converts a given SL/TP distance to
an absolute price rounded to the instrument's digits, and that
distance-derived value is the one sent even when an absolute sl/tp is
also given; pending_order ignores sl_dist/tp_dist entirely and sends the
given absolute sl/tp (or 0.0 when absent). -/
theorem c3_distance_resolution :
    (∀ (env : MT5Env) (req : OrderRequestDTO) (si : SymbolInfoDTO) (t : TickDTO)
       (r : TradeRequest) (d : ℚ),
       env.symbol_info req.symbol = some si →
       env.symbol_info_tick req.symbol = some t →
       market_order_request env req = .ok r →
       (req.sl_dist = some d →
         r.sl = some (pyRound (if req.side = .BUY then t.ask - d else t.bid + d)
           si.digits)) ∧
       (req.tp_dist = some d →
         r.tp = some (pyRound (if req.side = .BUY then t.ask + d else t.bid - d)
           si.digits))) ∧
    (∀ (env : MT5Env) (req : OrderRequestDTO) (r : TradeRequest),
       pending_order_request env req = .ok r →
       r.sl = some (pyOrZero req.sl) ∧ r.tp = some (pyOrZero req.tp)) := by
  constructor
  · intro env req si t r d hsi ht hr
    simp only [market_order_request, ensure_symbol, hsi, ht] at hr
    have hr2 := hr.symm
    injection hr2 with hr3
    subst hr3
    constructor <;> intro hdist <;>
      by_cases hs : req.side = .BUY <;> simp [hs, hdist, pyOrZero]
  · intro env req r hr
    simp only [pending_order_request, ensure_symbol] at hr
    rcases hsym : env.symbol_info req.symbol with _ | si <;> rw [hsym] at hr
    · exact absurd hr (by simp)
    · by_cases hk : req.kind = .MARKET
      · rw [if_pos hk] at hr
        exact absurd hr (by simp)
      · rw [if_neg hk] at hr
        rcases hp : req.price with _ | price <;> rw [hp] at hr
        · exact absurd hr (by simp)
        · rcases hm : kind_map req.kind with _ | ty <;> rw [hm] at hr
          · exact absurd hr (by simp)
          · have hr2 := hr.symm
            injection hr2 with hr3
            subst hr3
            exact ⟨rfl, rfl⟩

/-- A market BUY on XAUUSD carrying both an absolute sl and sl_dist = 2. -/
def reqC3w : OrderRequestDTO :=
  { symbol := "XAUUSD", side := .BUY, volume := 1, kind := .MARKET,
    sl := some 1111, sl_dist := some 2 }

/-- The trade request market_order builds for reqC3w in envXAU. -/
def rC3w : TradeRequest :=
  { action := TRADE_ACTION_DEAL, symbol := "XAUUSD", type := some ORDER_TYPE_BUY,
    volume := some 1, price := some 2400,
    sl := some (pyRound (2400 - 2) 2), tp := some 0,
    deviation := some 120, type_time := some ORDER_TIME_GTC,
    type_filling := some 1, comment := "py-trade" }

/-- A pending BUY_LIMIT on EURUSD with absolute sl = 7. -/
def reqC3w2 : OrderRequestDTO :=
  { symbol := "EURUSD", side := .BUY, volume := 1, kind := .BUY_LIMIT,
    price := some 2000, sl := some 7 }

/-- The trade request pending_order builds for reqC3w2 in envEUR. -/
def rC3w2 : TradeRequest :=
  { action := TRADE_ACTION_PENDING, symbol := "EURUSD",
    type := some ORDER_TYPE_BUY_LIMIT, volume := some 1, price := some 2000,
    stoplimit := some 0, sl := some 7, tp := some 0, deviation := some 120,
    type_time := some ORDER_TIME_GTC, type_filling := some ORDER_FILLING_RETURN,
    expiration := some 0, comment := "py-trade" }

/-- Witness for C3 (amended): in the market path the distance wins over
the absolute sl (2398, not 1111); in the pending path the absolute sl is
sent unchanged. -/
theorem c3_distance_resolution_witness :
    rC3w.sl = some 2398 ∧ rC3w2.sl = some 7 := by
  have hm := (c3_distance_resolution.1 envXAU reqC3w siXAU tXAU rC3w 2
    rfl rfl rfl).1 rfl
  have hp := (c3_distance_resolution.2 envEUR reqC3w2 rC3w2 rfl).1
  refine ⟨?_, ?_⟩
  · rw [hm]
    exact congrArg some pyRound_buy_sl
  · exact hp

/-- Helper: snapshot writes never violate a constraint, so
record_positions always succeeds, committing one single-row transaction
per position, in order. -/
theorem record_positions_spec :
    ∀ (ps : List PositionDTO) (st : Store),
      record_positions st ps =
        (.ok (), ⟨st.txns ++ ps.map (fun p => [Row.possnap (snapRowOf p)])⟩) := by
  intro ps
  induction ps with
  | nil =>
    intro st
    simp [record_positions]
  | cons p rest ih =>
    intro st
    simp [record_positions, Store.create, rowViolates, ih]

/-- Claim C9: the Service's positions query returns exactly the gateway's
live positions and writes exactly one snapshot row per returned position;
when the broker reports none it returns the empty sequence (no failure)
and leaves the store unchanged. -/
theorem c9_positions_snapshot :
    ∀ (env : MT5Env) (st : Store) (symbol : Option String),
      svc_positions env st symbol =
        (.ok (gw_positions env symbol),
         ⟨st.txns ++ (gw_positions env symbol).map
            (fun p => [Row.possnap (snapRowOf p)])⟩) ∧
      (gw_positions env symbol = [] →
        svc_positions env st symbol = (.ok [], st)) := by
  intro env st symbol
  constructor
  · simp [svc_positions, record_positions_spec]
  · intro h
    simp [svc_positions, h, record_positions_spec]

/-- An open EURUSD position for the C9 scenario. -/
def pC9 : BrokerPosition :=
  { ticket := 31, symbol := "EURUSD", type := 0, volume := 2, price_open := 11/10,
    sl := 0, tp := 0, profit := 5 }

/-- An MT5 session with exactly one open EURUSD position. -/
def envC9 : MT5Env :=
  { symbol_info := fun s => if s = "EURUSD" then some siEUR else none,
    symbol_info_tick := fun s => if s = "EURUSD" then some tEUR else none,
    positions_all := [pC9],
    order_send := fun _ => none,
    last_error := (0, "") }

/-- The empty store. -/
def store0 : Store := ⟨[]⟩

/-- The PositionDTO the gateway derives from pC9. -/
def pC9dto : PositionDTO :=
  { ticket := 31, symbol := "EURUSD", side := .BUY, volume := 2,
    price_open := 11/10, sl := 0, tp := 0, profit := 5 }

/-- Witness for C9: a symbol with no open positions returns the empty
list and leaves the store untouched; a symbol with one open position
returns it and commits exactly one snapshot row. -/
theorem c9_positions_snapshot_witness :
    svc_positions envEUR store0 (some "EURUSD") = (.ok [], store0) ∧
    svc_positions envC9 store0 (some "EURUSD") =
      (.ok [pC9dto], ⟨[[Row.possnap (snapRowOf pC9dto)]]⟩) :=
  ⟨(c9_positions_snapshot envEUR store0 (some "EURUSD")).2 rfl,
   (c9_positions_snapshot envC9 store0 (some "EURUSD")).1⟩

/-- Helper: a close_position call that returns a result sent exactly one
trade request. -/
theorem close_position_sends_one :
    ∀ (env : MT5Env) (tr : GwTrace) (ticket dev : Int) (res : OrderResultDTO)
      (tr' : GwTrace),
      close_position env tr ticket dev = (.ok res, tr') →
      tr'.sent.length = tr.sent.length + 1 := by
  intro env tr ticket dev res tr' h
  unfold close_position at h
  split at h
  · exact absurd h (by simp)
  · have h2 : (⟨tr.sent ++ [_]⟩ : GwTrace) = tr' := congrArg Prod.snd h
    rw [← h2]
    simp

/-- Helper: a successful one-row create commits exactly one new
transaction holding exactly that row. -/
theorem store_create_ok_shape :
    ∀ (st : Store) (r : Row) (u : Unit) (st' : Store),
      st.create r = (.ok u, st') → st'.txns = st.txns ++ [[r]] := by
  intro st r u st' h
  unfold Store.create at h
  split at h
  · exact absurd h (by simp)
  · have h2 : (⟨st.txns ++ [[r]]⟩ : Store) = st' := congrArg Prod.snd h
    rw [← h2]

/-- Helper: the close_all loop, when it completes, returns one result
per listed position, sends one close per listed position, and commits
one transaction per listed position. -/
theorem close_all_loop_spec :
    ∀ (env : MT5Env) (dev : Int) (ps : List PositionDTO) (st : Store)
      (tr : GwTrace) (acc out : List OrderResultDTO) (st' : Store) (tr' : GwTrace),
      close_all_loop env st tr dev ps acc = (.ok out, st', tr') →
      out.length = acc.length + ps.length ∧
      tr'.sent.length = tr.sent.length + ps.length ∧
      st'.txns.length = st.txns.length + ps.length := by
  intro env dev ps
  induction ps with
  | nil =>
    intro st tr acc out st' tr' h
    simp only [close_all_loop] at h
    obtain ⟨h1, h2, h3⟩ :
        (Except.ok acc : Except PyError (List OrderResultDTO)) = Except.ok out ∧
          st = st' ∧ tr = tr' := by
      simpa [Prod.ext_iff] using h
    injection h1 with h1
    subst h1
    subst h2
    subst h3
    simp
  | cons p rest ih =>
    intro st tr acc out st' tr' h
    simp only [close_all_loop] at h
    rcases hcp : close_position env tr p.ticket dev with ⟨cres, tr1⟩
    rw [hcp] at h
    cases cres with
    | error e => exact absurd h (by simp)
    | ok res =>
      dsimp only at h
      rcases hrc : record_order_change st p.ticket res with ⟨rres, st1⟩
      rw [hrc] at h
      cases rres with
      | error e => exact absurd h (by simp)
      | ok u =>
        obtain ⟨ho, htr, hst⟩ := ih st1 tr1 (acc ++ [res]) out st' tr' h
        have hone := close_position_sends_one env tr p.ticket dev res tr1 hcp
        have hcre := store_create_ok_shape st (.order (changeRowOf p.ticket res))
          u st1 hrc
        refine ⟨?_, ?_, ?_⟩
        · rw [ho]
          simp
          omega
        · rw [htr, hone]
          simp
          omega
        · rw [hst, hcre]
          simp
          omega

/-- Claim C5: when close_all on a symbol completes, it has issued exactly
one close attempt per open position for that symbol, returned exactly one
result per position (failure results such as a broker NO_RESULT are
collected, not dropped), and recorded each result individually. -/
theorem c5_close_all_counts :
    ∀ (env : MT5Env) (st : Store) (tr : GwTrace) (symbol : String) (dev : Int)
      (out : List OrderResultDTO) (st' : Store) (tr' : GwTrace),
      svc_close_all env st tr symbol dev = (.ok out, st', tr') →
      out.length = (gw_positions env (some symbol)).length ∧
      tr'.sent.length = tr.sent.length + (gw_positions env (some symbol)).length ∧
      st'.txns.length = st.txns.length + (gw_positions env (some symbol)).length := by
  intro env st tr symbol dev out st' tr' h
  have := close_all_loop_spec env dev (gw_positions env (some symbol))
    st tr [] out st' tr' h
  simpa using this

/-- First open EURUSD position for the C5 scenario. -/
def pC5a : BrokerPosition :=
  { ticket := 1, symbol := "EURUSD", type := 0, volume := 1, price_open := 11/10,
    sl := 0, tp := 0, profit := 0 }

/-- Second open EURUSD position for the C5 scenario. -/
def pC5b : BrokerPosition :=
  { ticket := 2, symbol := "EURUSD", type := 1, volume := 1, price_open := 11/10,
    sl := 0, tp := 0, profit := 0 }

/-- The broker result for closing position 1 in the C5 scenario. -/
def brC5a : BrokerResult :=
  { retcode := 10009, comment := some "done", order := some 11, deal := none }

/-- An MT5 session with two open EURUSD positions where the broker
answers the close of ticket 1 but returns no result for ticket 2. -/
def envC5 : MT5Env :=
  { symbol_info := fun s => if s = "EURUSD" then some siEUR else none,
    symbol_info_tick := fun s => if s = "EURUSD" then some tEUR else none,
    positions_all := [pC5a, pC5b],
    order_send := fun r => if r.position == some 1 then some brC5a else none,
    last_error := (1, "ipc timeout") }

/-- The result of closing ticket 1 in envC5 (a broker DONE). -/
def resC5a : OrderResultDTO := fmt_res envC5 (some brC5a)

/-- The result of closing ticket 2 in envC5 (a NO_RESULT failure). -/
def resC5b : OrderResultDTO := fmt_res envC5 none

/-- The complete close_all run of the C5 scenario. -/
def c5run : Except PyError (List OrderResultDTO) × Store × GwTrace :=
  svc_close_all envC5 store0 ⟨[]⟩ "EURUSD" 120

/-- Witness for C5: with two open positions, one close succeeding and one
failing with NO_RESULT, close_all still returns two results, sends two
close requests and records two rows. -/
theorem c5_close_all_counts_witness :
    ([resC5a, resC5b].length = (gw_positions envC5 (some "EURUSD")).length ∧
     c5run.2.2.sent.length =
       (GwTrace.mk []).sent.length + (gw_positions envC5 (some "EURUSD")).length ∧
     c5run.2.1.txns.length =
       store0.txns.length + (gw_positions envC5 (some "EURUSD")).length) ∧
    resC5b.retcode = -1 ∧ resC5b.label = "NO_RESULT" ∧ resC5a.retcode = 10009 :=
  ⟨c5_close_all_counts envC5 store0 ⟨[]⟩ "EURUSD" 120 [resC5a, resC5b]
     c5run.2.1 c5run.2.2 rfl,
   rfl, rfl, rfl⟩

/-- Predicate picking out deal rows. -/
def Row.isDealRow : Row → Bool
  | .deal _ => true
  | _ => false

/-- The open EURUSD position for the C6 scenario. -/
def pC6 : BrokerPosition :=
  { ticket := 5, symbol := "EURUSD", type := 0, volume := 1, price_open := 11/10,
    sl := 0, tp := 0, profit := 0 }

/-- The broker result for the C6 close: DONE with deal ticket 777. -/
def brC6 : BrokerResult :=
  { retcode := 10009, comment := some "done", order := some 44, deal := some 777,
    price := none, request_id := some 9 }

/-- An MT5 session whose close of position 5 succeeds with deal 777. -/
def envC6 : MT5Env :=
  { symbol_info := fun s => if s = "EURUSD" then some siEUR else none,
    symbol_info_tick := fun s => if s = "EURUSD" then some tEUR else none,
    positions_all := [pC6],
    order_send := fun _ => some brC6,
    last_error := (0, "") }

/-- The OrderResultDTO of the C6 close. -/
def resC6 : OrderResultDTO := fmt_res envC6 (some brC6)

/-- The complete close run of the C6 scenario. -/
def c6run : Except PyError OrderResultDTO × Store × GwTrace :=
  svc_close envC6 store0 ⟨[]⟩ 5 120

/-- Counterexample for C6: a successful close whose OrderResult carries
the non-null deal ticket 777 persists one order record but no deal
record at all (record_order_change never writes a deal row), so no
paired deal record exists, let alone in the same transaction. -/
theorem c6_paired_deal_record_counterexample :
    c6run.1 = .ok resC6 ∧
    resC6.retcode = 10009 ∧
    resC6.label = "DONE" ∧
    resC6.deal = some 777 ∧
    (c6run.2.1.rows.filter Row.isDealRow).length = 0 ∧
    c6run.2.1.rows.length = 1 :=
  ⟨rfl, rfl, rfl, rfl, rfl, rfl⟩

/-- Helper: _record_order can only return normally when the result's
deal ticket is falsy, in which case it has committed exactly the order
row in its own transaction. A truthy deal ticket would send the recorder
into the deal insert, which always violates the NOT NULL constraint on
deals.time (the recorder passes time = None and the column has no
default), so that path never returns normally. -/
theorem record_order_ok_shape :
    ∀ (st : Store) (req : OrderRequestDTO) (res : OrderResultDTO) (u : Unit)
      (st' : Store),
      record_order st req res = (.ok u, st') →
      optTruthy res.deal = false ∧
      st'.txns = st.txns ++ [[Row.order (orderRowOf req res)]] := by
  intro st req res u st' h
  unfold record_order at h
  rcases hc : st.create (.order (orderRowOf req res)) with ⟨cres, st1⟩
  rw [hc] at h
  cases cres with
  | error e => exact absurd h (by simp)
  | ok u1 =>
    dsimp only at h
    have h1 := store_create_ok_shape st (.order (orderRowOf req res)) u1 st1 hc
    by_cases hd : optTruthy res.deal
    · rw [if_pos hd] at h
      exfalso
      have hv : rowViolates st1.rows (.deal (dealRowOf req res)) = true := by
        simp [rowViolates, dealRowOf]
      unfold Store.create at h
      rw [if_pos hv] at h
      exact absurd h (by simp)
    · rw [if_neg hd] at h
      have h2 : st1 = st' := congrArg Prod.snd h
      rw [← h2, h1]
      exact ⟨by simpa using hd, rfl⟩

/-- Helper: a create either rolls back with the IntegrityError leaving
the store unchanged, or commits one new single-row transaction. -/
theorem store_create_cases :
    ∀ (st : Store) (r : Row),
      Store.create st r = (.error (.persistenceError "IntegrityError"), st) ∨
      Store.create st r = (.ok (), ⟨st.txns ++ [[r]]⟩) := by
  intro st r
  unfold Store.create
  split
  · exact Or.inl rfl
  · exact Or.inr rfl

/-- Helper: inserting a deal row with time = None always violates the
NOT NULL constraint on deals.time and rolls back. -/
theorem store_create_deal_time_none :
    ∀ (st : Store) (d : DealRow), d.time = none →
      Store.create st (.deal d) =
        (.error (.persistenceError "IntegrityError"), st) := by
  intro st d h
  unfold Store.create
  have hv : rowViolates st.rows (.deal d) = true := by
    simp [rowViolates, h]
  rw [if_pos hv]

/-- Helper: with a truthy deal ticket, _record_order always raises the
persistence IntegrityError: either the order insert itself fails, or the
following deal insert fails on the NOT NULL deals.time column. -/
theorem record_order_truthy_deal_raises :
    ∀ (st : Store) (req : OrderRequestDTO) (res : OrderResultDTO),
      optTruthy res.deal = true →
      (record_order st req res).1 = .error (.persistenceError "IntegrityError") := by
  intro st req res hd
  unfold record_order
  rcases store_create_cases st (.order (orderRowOf req res)) with hc | hc
  · simp [hc]
  · simp [hc, hd, store_create_deal_time_none, dealRowOf]

/-- Helper: _record_order never changes the committed deal rows — the
deal insert, when attempted, always fails and is rolled back. -/
theorem record_order_deal_rows :
    ∀ (st : Store) (req : OrderRequestDTO) (res : OrderResultDTO),
      (record_order st req res).2.rows.filter Row.isDealRow =
        st.rows.filter Row.isDealRow := by
  intro st req res
  unfold record_order
  rcases store_create_cases st (.order (orderRowOf req res)) with hc | hc
  · simp [hc]
  · by_cases hd : optTruthy res.deal = true
    · simp [hc, hd, store_create_deal_time_none, dealRowOf, Store.rows,
        List.flatten_append, List.filter_append, Row.isDealRow]
    · simp [hc, hd, Store.rows, List.flatten_append, List.filter_append,
        Row.isDealRow]

/-- Helper: _record_order_change writes only an order row, so the
committed deal rows are unchanged. -/
theorem record_order_change_deal_rows :
    ∀ (st : Store) (ticket : Int) (res : OrderResultDTO),
      (record_order_change st ticket res).2.rows.filter Row.isDealRow =
        st.rows.filter Row.isDealRow := by
  intro st ticket res
  unfold record_order_change
  rcases store_create_cases st (.order (changeRowOf ticket res)) with hc | hc
  · simp [hc]
  · simp [hc, Store.rows, List.flatten_append, List.filter_append, Row.isDealRow]

/-- The order-record fields the claim requires to match the OrderResult. -/
@[reducible] def ordersRowMatches (row : OrderRow) (res : OrderResultDTO) : Prop :=
  row.retcode = res.retcode ∧ row.retcode_label = res.label ∧
  row.broker_order = res.order ∧ row.broker_deal = res.deal

/-- Claim C6 (amended): a successful buy/sell/place_pending call has
committed exactly one order record, in its own transaction, whose
retcode, label and ticket fields match the returned OrderResult, and its
result's deal ticket is necessarily falsy: when the gateway result
carries a truthy deal ticket the paired deal insert always violates the
NOT NULL constraint on deals.time (the recorder passes time = None and
the column has no default), so the call raises the persistence
IntegrityError instead of returning. A successful modify_sltp or close
commits exactly one order record (broker_order falling back to the
position ticket when the result's order ticket is falsy). None of the
five calls ever commits a deal row, in any transaction. -/
theorem c6_order_and_deal_recording :
    (∀ (env : MT5Env) (st : Store) (tr : GwTrace) (symbol : String) (volume : ℚ)
       (sld tpd : Option ℚ) (dev : Int) (cmt : String) (res : OrderResultDTO)
       (st' : Store) (tr' : GwTrace),
       svc_buy env st tr symbol volume sld tpd dev cmt = (.ok res, st', tr') →
       optTruthy res.deal = false ∧
       st'.txns = st.txns ++
         [[Row.order (orderRowOf (buyRequest symbol volume sld tpd dev cmt) res)]] ∧
       ordersRowMatches (orderRowOf (buyRequest symbol volume sld tpd dev cmt) res)
         res) ∧
    (∀ (env : MT5Env) (st : Store) (tr : GwTrace) (symbol : String) (volume : ℚ)
       (sld tpd : Option ℚ) (dev : Int) (cmt : String) (res : OrderResultDTO)
       (st' : Store) (tr' : GwTrace),
       svc_sell env st tr symbol volume sld tpd dev cmt = (.ok res, st', tr') →
       optTruthy res.deal = false ∧
       st'.txns = st.txns ++
         [[Row.order (orderRowOf (sellRequest symbol volume sld tpd dev cmt) res)]] ∧
       ordersRowMatches (orderRowOf (sellRequest symbol volume sld tpd dev cmt) res)
         res) ∧
    (∀ (env : MT5Env) (st : Store) (tr : GwTrace) (symbol : String)
       (side : TradeSide) (kind : OrderKind) (price volume sl tp : ℚ)
       (slp : Option ℚ) (dev : Int) (cmt : String) (res : OrderResultDTO)
       (st' : Store) (tr' : GwTrace),
       svc_place_pending env st tr symbol side kind price volume sl tp slp dev cmt =
         (.ok res, st', tr') →
       optTruthy res.deal = false ∧
       st'.txns = st.txns ++
         [[Row.order (orderRowOf
            (pendingRequest symbol side kind price volume sl tp slp dev cmt) res)]] ∧
       ordersRowMatches
         (orderRowOf (pendingRequest symbol side kind price volume sl tp slp dev cmt)
           res) res) ∧
    (∀ (env : MT5Env) (st : Store) (tr : GwTrace) (symbol : String) (volume : ℚ)
       (sld tpd : Option ℚ) (dev : Int) (cmt : String) (res : OrderResultDTO)
       (tr1 : GwTrace),
       market_order env tr (buyRequest symbol volume sld tpd dev cmt) =
         (.ok res, tr1) →
       optTruthy res.deal = true →
       (svc_buy env st tr symbol volume sld tpd dev cmt).1 =
         .error (.persistenceError "IntegrityError")) ∧
    (∀ (env : MT5Env) (st : Store) (tr : GwTrace) (symbol : String) (volume : ℚ)
       (sld tpd : Option ℚ) (dev : Int) (cmt : String) (res : OrderResultDTO)
       (tr1 : GwTrace),
       market_order env tr (sellRequest symbol volume sld tpd dev cmt) =
         (.ok res, tr1) →
       optTruthy res.deal = true →
       (svc_sell env st tr symbol volume sld tpd dev cmt).1 =
         .error (.persistenceError "IntegrityError")) ∧
    (∀ (env : MT5Env) (st : Store) (tr : GwTrace) (symbol : String)
       (side : TradeSide) (kind : OrderKind) (price volume sl tp : ℚ)
       (slp : Option ℚ) (dev : Int) (cmt : String) (res : OrderResultDTO)
       (tr1 : GwTrace),
       pending_order env tr (pendingRequest symbol side kind price volume sl tp slp
         dev cmt) = (.ok res, tr1) →
       optTruthy res.deal = true →
       (svc_place_pending env st tr symbol side kind price volume sl tp slp dev
         cmt).1 = .error (.persistenceError "IntegrityError")) ∧
    (∀ (env : MT5Env) (st : Store) (tr : GwTrace) (ticket : Int) (sl tp : ℚ)
       (res : OrderResultDTO) (st' : Store) (tr' : GwTrace),
       svc_modify_sltp env st tr ticket sl tp = (.ok res, st', tr') →
       st'.txns = st.txns ++ [[Row.order (changeRowOf ticket res)]] ∧
       (changeRowOf ticket res).retcode = res.retcode ∧
       (changeRowOf ticket res).retcode_label = res.label ∧
       (changeRowOf ticket res).broker_order = some (pyOrInt res.order ticket)) ∧
    (∀ (env : MT5Env) (st : Store) (tr : GwTrace) (ticket dev : Int)
       (res : OrderResultDTO) (st' : Store) (tr' : GwTrace),
       svc_close env st tr ticket dev = (.ok res, st', tr') →
       st'.txns = st.txns ++ [[Row.order (changeRowOf ticket res)]] ∧
       (changeRowOf ticket res).retcode = res.retcode ∧
       (changeRowOf ticket res).retcode_label = res.label ∧
       (changeRowOf ticket res).broker_order = some (pyOrInt res.order ticket)) ∧
    (∀ (env : MT5Env) (st : Store) (tr : GwTrace) (symbol : String) (volume : ℚ)
       (sld tpd : Option ℚ) (dev : Int) (cmt : String),
       (svc_buy env st tr symbol volume sld tpd dev cmt).2.1.rows.filter
         Row.isDealRow = st.rows.filter Row.isDealRow) ∧
    (∀ (env : MT5Env) (st : Store) (tr : GwTrace) (symbol : String) (volume : ℚ)
       (sld tpd : Option ℚ) (dev : Int) (cmt : String),
       (svc_sell env st tr symbol volume sld tpd dev cmt).2.1.rows.filter
         Row.isDealRow = st.rows.filter Row.isDealRow) ∧
    (∀ (env : MT5Env) (st : Store) (tr : GwTrace) (symbol : String)
       (side : TradeSide) (kind : OrderKind) (price volume sl tp : ℚ)
       (slp : Option ℚ) (dev : Int) (cmt : String),
       (svc_place_pending env st tr symbol side kind price volume sl tp slp dev
         cmt).2.1.rows.filter Row.isDealRow = st.rows.filter Row.isDealRow) ∧
    (∀ (env : MT5Env) (st : Store) (tr : GwTrace) (ticket : Int) (sl tp : ℚ),
       (svc_modify_sltp env st tr ticket sl tp).2.1.rows.filter Row.isDealRow =
         st.rows.filter Row.isDealRow) ∧
    (∀ (env : MT5Env) (st : Store) (tr : GwTrace) (ticket dev : Int),
       (svc_close env st tr ticket dev).2.1.rows.filter Row.isDealRow =
         st.rows.filter Row.isDealRow) := by
  refine ⟨?_, ?_, ?_, ?_, ?_, ?_, ?_, ?_, ?_, ?_, ?_, ?_, ?_⟩
  · intro env st tr symbol volume sld tpd dev cmt res st' tr' h
    unfold svc_buy at h
    dsimp only at h
    rcases hm : market_order env tr (buyRequest symbol volume sld tpd dev cmt)
      with ⟨mres, tr1⟩
    rw [hm] at h
    cases mres with
    | error e => exact absurd h (by simp)
    | ok res0 =>
      dsimp only at h
      rcases hr : record_order st (buyRequest symbol volume sld tpd dev cmt) res0
        with ⟨rres, st1⟩
      rw [hr] at h
      cases rres with
      | error e => exact absurd h (by simp)
      | ok u =>
        obtain ⟨h1, h2, h3⟩ :
            (Except.ok res0 : Except PyError OrderResultDTO) = Except.ok res ∧
              st1 = st' ∧ tr1 = tr' := by
          simpa [Prod.ext_iff] using h
        injection h1 with h1
        subst h1
        subst h2
        subst h3
        obtain ⟨hd, hshape⟩ := record_order_ok_shape st _ res0 u st1 hr
        exact ⟨hd, hshape, rfl, rfl, rfl, rfl⟩
  · intro env st tr symbol volume sld tpd dev cmt res st' tr' h
    unfold svc_sell at h
    dsimp only at h
    rcases hm : market_order env tr (sellRequest symbol volume sld tpd dev cmt)
      with ⟨mres, tr1⟩
    rw [hm] at h
    cases mres with
    | error e => exact absurd h (by simp)
    | ok res0 =>
      dsimp only at h
      rcases hr : record_order st (sellRequest symbol volume sld tpd dev cmt) res0
        with ⟨rres, st1⟩
      rw [hr] at h
      cases rres with
      | error e => exact absurd h (by simp)
      | ok u =>
        obtain ⟨h1, h2, h3⟩ :
            (Except.ok res0 : Except PyError OrderResultDTO) = Except.ok res ∧
              st1 = st' ∧ tr1 = tr' := by
          simpa [Prod.ext_iff] using h
        injection h1 with h1
        subst h1
        subst h2
        subst h3
        obtain ⟨hd, hshape⟩ := record_order_ok_shape st _ res0 u st1 hr
        exact ⟨hd, hshape, rfl, rfl, rfl, rfl⟩
  · intro env st tr symbol side kind price volume sl tp slp dev cmt res st' tr' h
    unfold svc_place_pending at h
    dsimp only at h
    rcases hm : pending_order env tr
        (pendingRequest symbol side kind price volume sl tp slp dev cmt)
      with ⟨mres, tr1⟩
    rw [hm] at h
    cases mres with
    | error e => exact absurd h (by simp)
    | ok res0 =>
      dsimp only at h
      rcases hr : record_order st
          (pendingRequest symbol side kind price volume sl tp slp dev cmt) res0
        with ⟨rres, st1⟩
      rw [hr] at h
      cases rres with
      | error e => exact absurd h (by simp)
      | ok u =>
        obtain ⟨h1, h2, h3⟩ :
            (Except.ok res0 : Except PyError OrderResultDTO) = Except.ok res ∧
              st1 = st' ∧ tr1 = tr' := by
          simpa [Prod.ext_iff] using h
        injection h1 with h1
        subst h1
        subst h2
        subst h3
        obtain ⟨hd, hshape⟩ := record_order_ok_shape st _ res0 u st1 hr
        exact ⟨hd, hshape, rfl, rfl, rfl, rfl⟩
  · intro env st tr symbol volume sld tpd dev cmt res tr1 hm hd
    unfold svc_buy
    dsimp only
    rw [hm]
    dsimp only
    have hb := record_order_truthy_deal_raises st
      (buyRequest symbol volume sld tpd dev cmt) res hd
    rcases hrec : record_order st (buyRequest symbol volume sld tpd dev cmt) res
      with ⟨rres, st1⟩
    rw [hrec] at hb
    dsimp only at hb
    simp [hb]
  · intro env st tr symbol volume sld tpd dev cmt res tr1 hm hd
    unfold svc_sell
    dsimp only
    rw [hm]
    dsimp only
    have hb := record_order_truthy_deal_raises st
      (sellRequest symbol volume sld tpd dev cmt) res hd
    rcases hrec : record_order st (sellRequest symbol volume sld tpd dev cmt) res
      with ⟨rres, st1⟩
    rw [hrec] at hb
    dsimp only at hb
    simp [hb]
  · intro env st tr symbol side kind price volume sl tp slp dev cmt res tr1 hm hd
    unfold svc_place_pending
    dsimp only
    rw [hm]
    dsimp only
    have hb := record_order_truthy_deal_raises st
      (pendingRequest symbol side kind price volume sl tp slp dev cmt) res hd
    rcases hrec : record_order st
        (pendingRequest symbol side kind price volume sl tp slp dev cmt) res
      with ⟨rres, st1⟩
    rw [hrec] at hb
    dsimp only at hb
    simp [hb]
  · intro env st tr ticket sl tp res st' tr' h
    unfold svc_modify_sltp at h
    rcases hm : modify_position_sltp env tr ticket sl tp with ⟨mres, tr1⟩
    rw [hm] at h
    cases mres with
    | error e => exact absurd h (by simp)
    | ok res0 =>
      dsimp only at h
      rcases hr : record_order_change st ticket res0 with ⟨rres, st1⟩
      rw [hr] at h
      cases rres with
      | error e => exact absurd h (by simp)
      | ok u =>
        obtain ⟨h1, h2, h3⟩ :
            (Except.ok res0 : Except PyError OrderResultDTO) = Except.ok res ∧
              st1 = st' ∧ tr1 = tr' := by
          simpa [Prod.ext_iff] using h
        injection h1 with h1
        subst h1
        subst h2
        subst h3
        exact ⟨store_create_ok_shape st (.order (changeRowOf ticket res0)) u st1 hr,
          rfl, rfl, rfl⟩
  · intro env st tr ticket dev res st' tr' h
    unfold svc_close at h
    rcases hm : close_position env tr ticket dev with ⟨mres, tr1⟩
    rw [hm] at h
    cases mres with
    | error e => exact absurd h (by simp)
    | ok res0 =>
      dsimp only at h
      rcases hr : record_order_change st ticket res0 with ⟨rres, st1⟩
      rw [hr] at h
      cases rres with
      | error e => exact absurd h (by simp)
      | ok u =>
        obtain ⟨h1, h2, h3⟩ :
            (Except.ok res0 : Except PyError OrderResultDTO) = Except.ok res ∧
              st1 = st' ∧ tr1 = tr' := by
          simpa [Prod.ext_iff] using h
        injection h1 with h1
        subst h1
        subst h2
        subst h3
        exact ⟨store_create_ok_shape st (.order (changeRowOf ticket res0)) u st1 hr,
          rfl, rfl, rfl⟩
  · intro env st tr symbol volume sld tpd dev cmt
    unfold svc_buy
    dsimp only
    rcases hm : market_order env tr (buyRequest symbol volume sld tpd dev cmt)
      with ⟨mres, tr1⟩
    cases mres with
    | error e => rfl
    | ok res0 =>
      dsimp only
      have hrows := record_order_deal_rows st
        (buyRequest symbol volume sld tpd dev cmt) res0
      rcases hr : record_order st (buyRequest symbol volume sld tpd dev cmt) res0
        with ⟨rres, st1⟩
      rw [hr] at hrows
      dsimp only at hrows
      cases rres <;> exact hrows
  · intro env st tr symbol volume sld tpd dev cmt
    unfold svc_sell
    dsimp only
    rcases hm : market_order env tr (sellRequest symbol volume sld tpd dev cmt)
      with ⟨mres, tr1⟩
    cases mres with
    | error e => rfl
    | ok res0 =>
      dsimp only
      have hrows := record_order_deal_rows st
        (sellRequest symbol volume sld tpd dev cmt) res0
      rcases hr : record_order st (sellRequest symbol volume sld tpd dev cmt) res0
        with ⟨rres, st1⟩
      rw [hr] at hrows
      dsimp only at hrows
      cases rres <;> exact hrows
  · intro env st tr symbol side kind price volume sl tp slp dev cmt
    unfold svc_place_pending
    dsimp only
    rcases hm : pending_order env tr
        (pendingRequest symbol side kind price volume sl tp slp dev cmt)
      with ⟨mres, tr1⟩
    cases mres with
    | error e => rfl
    | ok res0 =>
      dsimp only
      have hrows := record_order_deal_rows st
        (pendingRequest symbol side kind price volume sl tp slp dev cmt) res0
      rcases hr : record_order st
          (pendingRequest symbol side kind price volume sl tp slp dev cmt) res0
        with ⟨rres, st1⟩
      rw [hr] at hrows
      dsimp only at hrows
      cases rres <;> exact hrows
  · intro env st tr ticket sl tp
    unfold svc_modify_sltp
    rcases hm : modify_position_sltp env tr ticket sl tp with ⟨mres, tr1⟩
    cases mres with
    | error e => rfl
    | ok res0 =>
      dsimp only
      have hrows := record_order_change_deal_rows st ticket res0
      rcases hr : record_order_change st ticket res0 with ⟨rres, st1⟩
      rw [hr] at hrows
      dsimp only at hrows
      cases rres <;> exact hrows
  · intro env st tr ticket dev
    unfold svc_close
    rcases hm : close_position env tr ticket dev with ⟨mres, tr1⟩
    cases mres with
    | error e => rfl
    | ok res0 =>
      dsimp only
      have hrows := record_order_change_deal_rows st ticket res0
      rcases hr : record_order_change st ticket res0 with ⟨rres, st1⟩
      rw [hr] at hrows
      dsimp only at hrows
      cases rres <;> exact hrows

/-- The broker result for the C6 truthy-deal buy: DONE with deal 60. -/
def brC6b : BrokerResult :=
  { retcode := 10009, comment := some "done", order := some 50, deal := some 60 }

/-- An MT5 session quoting XAUUSD whose order_send fills with deal 60. -/
def envC6b : MT5Env :=
  { symbol_info := fun s => if s = "XAUUSD" then some siXAU else none,
    symbol_info_tick := fun s => if s = "XAUUSD" then some tXAU else none,
    positions_all := [],
    order_send := fun _ => some brC6b,
    last_error := (0, "") }

/-- The OrderResultDTO of the C6 truthy-deal buy. -/
def resC6b : OrderResultDTO := fmt_res envC6b (some brC6b)

/-- The complete truthy-deal buy run of the C6 scenario: the gateway
succeeds, but the deal insert fails on NOT NULL deals.time, so the call
raises. -/
def c6brun : Except PyError OrderResultDTO × Store × GwTrace :=
  svc_buy envC6b store0 ⟨[]⟩ "XAUUSD" 1 none none 120 "py-buy"

/-- The broker result for the C6 falsy-deal scenarios: DONE, no deal. -/
def brC6c : BrokerResult :=
  { retcode := 10009, comment := some "done", order := some 70, deal := none }

/-- An MT5 session quoting XAUUSD whose order_send fills without a deal
ticket. -/
def envC6c : MT5Env :=
  { symbol_info := fun s => if s = "XAUUSD" then some siXAU else none,
    symbol_info_tick := fun s => if s = "XAUUSD" then some tXAU else none,
    positions_all := [],
    order_send := fun _ => some brC6c,
    last_error := (0, "") }

/-- The OrderResultDTO of the C6 falsy-deal scenarios. -/
def resC6c : OrderResultDTO := fmt_res envC6c (some brC6c)

/-- The buy run of the C6 falsy-deal scenario. -/
def c6buyRun : Except PyError OrderResultDTO × Store × GwTrace :=
  svc_buy envC6c store0 ⟨[]⟩ "XAUUSD" 1 none none 120 "py-buy"

/-- The sell run of the C6 falsy-deal scenario. -/
def c6sellRun : Except PyError OrderResultDTO × Store × GwTrace :=
  svc_sell envC6c store0 ⟨[]⟩ "XAUUSD" 1 none none 120 "py-sell"

/-- The place_pending run of the C6 falsy-deal scenario. -/
def c6pendRun : Except PyError OrderResultDTO × Store × GwTrace :=
  svc_place_pending envC6c store0 ⟨[]⟩ "XAUUSD" TradeSide.BUY OrderKind.BUY_LIMIT
    2300 1 0 0 none 120 "py-pending"

/-- The modify_sltp run of the C6 scenario. -/
def c6modRun : Except PyError OrderResultDTO × Store × GwTrace :=
  svc_modify_sltp envC6 store0 ⟨[]⟩ 5 1 2

/-- Witness for C6 (amended): successful buy, sell and place_pending
runs each commit exactly the matching order row (their results carry no
deal ticket); the truthy-deal buy raises the IntegrityError instead of
returning; successful modify and close commit exactly the change row;
and even the truthy-deal run commits no deal row. -/
theorem c6_order_and_deal_recording_witness :
    (optTruthy resC6c.deal = false ∧
     c6buyRun.2.1.txns = store0.txns ++
       [[Row.order (orderRowOf (buyRequest "XAUUSD" 1 none none 120 "py-buy")
          resC6c)]] ∧
     ordersRowMatches
       (orderRowOf (buyRequest "XAUUSD" 1 none none 120 "py-buy") resC6c)
       resC6c) ∧
    (optTruthy resC6c.deal = false ∧
     c6sellRun.2.1.txns = store0.txns ++
       [[Row.order (orderRowOf (sellRequest "XAUUSD" 1 none none 120 "py-sell")
          resC6c)]] ∧
     ordersRowMatches
       (orderRowOf (sellRequest "XAUUSD" 1 none none 120 "py-sell") resC6c)
       resC6c) ∧
    (optTruthy resC6c.deal = false ∧
     c6pendRun.2.1.txns = store0.txns ++
       [[Row.order (orderRowOf (pendingRequest "XAUUSD" TradeSide.BUY
          OrderKind.BUY_LIMIT 2300 1 0 0 none 120 "py-pending") resC6c)]] ∧
     ordersRowMatches
       (orderRowOf (pendingRequest "XAUUSD" TradeSide.BUY OrderKind.BUY_LIMIT
          2300 1 0 0 none 120 "py-pending") resC6c) resC6c) ∧
    c6brun.1 = .error (.persistenceError "IntegrityError") ∧
    (c6modRun.2.1.txns = store0.txns ++ [[Row.order (changeRowOf 5 resC6)]] ∧
     (changeRowOf 5 resC6).retcode = resC6.retcode ∧
     (changeRowOf 5 resC6).retcode_label = resC6.label ∧
     (changeRowOf 5 resC6).broker_order = some (pyOrInt resC6.order 5)) ∧
    (c6run.2.1.txns = store0.txns ++ [[Row.order (changeRowOf 5 resC6)]] ∧
     (changeRowOf 5 resC6).retcode = resC6.retcode ∧
     (changeRowOf 5 resC6).retcode_label = resC6.label ∧
     (changeRowOf 5 resC6).broker_order = some (pyOrInt resC6.order 5)) ∧
    c6brun.2.1.rows.filter Row.isDealRow = store0.rows.filter Row.isDealRow :=
  ⟨c6_order_and_deal_recording.1 envC6c store0 ⟨[]⟩ "XAUUSD" 1 none none 120
     "py-buy" resC6c c6buyRun.2.1 c6buyRun.2.2 rfl,
   c6_order_and_deal_recording.2.1 envC6c store0 ⟨[]⟩ "XAUUSD" 1 none none 120
     "py-sell" resC6c c6sellRun.2.1 c6sellRun.2.2 rfl,
   (c6_order_and_deal_recording.2.2.1 envC6c store0 ⟨[]⟩ "XAUUSD" TradeSide.BUY
     OrderKind.BUY_LIMIT 2300 1 0 0 none 120 "py-pending" resC6c
     c6pendRun.2.1 c6pendRun.2.2 rfl),
   (c6_order_and_deal_recording.2.2.2.1 envC6b store0 ⟨[]⟩ "XAUUSD" 1 none none
     120 "py-buy" resC6b
     (market_order envC6b ⟨[]⟩ (buyRequest "XAUUSD" 1 none none 120 "py-buy")).2
     rfl rfl),
   (c6_order_and_deal_recording.2.2.2.2.2.2.1 envC6 store0 ⟨[]⟩ 5 1 2 resC6
     c6modRun.2.1 c6modRun.2.2 rfl),
   (c6_order_and_deal_recording.2.2.2.2.2.2.2.1 envC6 store0 ⟨[]⟩ 5 120 resC6
     c6run.2.1 c6run.2.2 rfl),
   (c6_order_and_deal_recording.2.2.2.2.2.2.2.2.1 envC6b store0 ⟨[]⟩ "XAUUSD" 1
     none none 120 "py-buy")⟩

/-- The broker result of the C1 buy: DONE with order ticket 111. -/
def brC1 : BrokerResult :=
  { retcode := 10009, comment := some "done", order := some 111 }

/-- An MT5 session quoting EURUSD whose order_send succeeds with order 111. -/
def envC1 : MT5Env :=
  { symbol_info := fun s => if s = "EURUSD" then some siEUR else none,
    symbol_info_tick := fun s => if s = "EURUSD" then some tEUR else none,
    positions_all := [],
    order_send := fun _ => some brC1,
    last_error := (0, "") }

/-- The request TradingService.buy builds in the C1 scenario. -/
def reqC1 : OrderRequestDTO := buyRequest "EURUSD" 1 none none 120 "py-buy"

/-- The successful OrderResultDTO the gateway returns in the C1 scenario. -/
def resC1 : OrderResultDTO := fmt_res envC1 (some brC1)

/-- A store already holding an order row with broker_order = 111 (an
earlier recording of the same broker ticket), so the unique constraint
on orders.broker_order fires on the next write. -/
def storeC1 : Store := ⟨[[Row.order (orderRowOf reqC1 resC1)]]⟩

/-- Claim C1 (code bug evidence): in the C1 scenario the gateway returns
the successful OrderResult (retcode DONE), yet the service's buy call
raises the persistence IntegrityError out of _record_order, returning no
OrderResult at all — the persistence failure masks the broker-side
result instead of being reported as a secondary error, and the store is
left unchanged by the rolled-back write. -/
theorem c1_persistence_failure_masks_result :
    (market_order envC1 ⟨[]⟩ reqC1).1 = .ok resC1 ∧
    resC1.retcode = 10009 ∧
    resC1.label = "DONE" ∧
    (svc_buy envC1 storeC1 ⟨[]⟩ "EURUSD" 1 none none 120 "py-buy").1 =
      .error (.persistenceError "IntegrityError") ∧
    (∀ r : OrderResultDTO,
      (svc_buy envC1 storeC1 ⟨[]⟩ "EURUSD" 1 none none 120 "py-buy").1 ≠ .ok r) ∧
    (svc_buy envC1 storeC1 ⟨[]⟩ "EURUSD" 1 none none 120 "py-buy").2.1 = storeC1 := by
  refine ⟨rfl, rfl, rfl, rfl, ?_, rfl⟩
  intro r h
  have h2 : (Except.error (.persistenceError "IntegrityError") :
      Except PyError OrderResultDTO) = .ok r := h
  exact Except.noConfusion h2
